import Mathlib

/-!
Verification of the Aurora OS AI Security kernel module
(src/kernel/ai_extensions/ai_security.c and ai_security.h) against its
natural-language specification.

The C module is shallowly embedded below:
* machine integers (u32, u64, pid_t, uid_t) become Nat; the scoring
  arithmetic never overflows, and the only clamp in the source is the
  explicit min(score, 100U);
* the float fields of struct ai_security_profile (behavior_score,
  risk_score, trust_score) are modelled as exact rationals; every constant
  involved (0.3, 0.8, 0.01, 0.005, 100) and every comparison in the claims
  is far from the rounding error of 32-bit floats, so the rational model is
  faithful for the properties settled here;
* the C cast (u32)(f) of a nonnegative float is truncation toward zero,
  modelled as the integer floor;
* kernel plumbing (spinlocks, RCU, timers, procfs, printk, audit_log) is
  I/O and synchronization, not data: the sequential state of the manager
  (profiles, recent event log, statistics, module parameters) is a record,
  and each LSM hook is a function from that state to a result and a new
  state. Allocation failure of an event (kzalloc returning NULL) is an
  explicit Boolean input of the hooks.
-/

namespace AuroraAISecurity

/-- Event types of enum ai_security_event_type (ai_security.h). -/
inductive EventType where
  | fileAccess
  | networkConnect
  | processExec
  | privilegeEscalation
  | memoryProtection
  | systemCall
  | suspiciousPattern
  deriving DecidableEq, Repr

/-- Threat levels of enum ai_security_threat_level (ai_security.h),
in declaration order None, Low, Medium, High, Critical. -/
inductive ThreatLevel where
  | none
  | low
  | medium
  | high
  | critical
  deriving DecidableEq, Repr

/-- The numeric value the C enum gives each threat level (0..4); max and
order comparisons in the C code are comparisons of these values. -/
def ThreatLevel.toNat : ThreatLevel → Nat
  | .none => 0
  | .low => 1
  | .medium => 2
  | .high => 3
  | .critical => 4

/-- The C max() of two threat-level enum values. -/
def ThreatLevel.maxLevel (a b : ThreatLevel) : ThreatLevel :=
  if a.toNat ≤ b.toNat then b else a

/-- Actions of enum ai_security_action (ai_security.h). -/
inductive SecAction where
  | allow
  | warn
  | block
  | quarantine
  | terminate
  | alert
  deriving DecidableEq, Repr

/-- AI_SECURITY_MAX_PROFILES from ai_security.h. -/
def AI_SECURITY_MAX_PROFILES : Nat := 256

/-- AI_SECURITY_THREAT_SCORE_THRESHOLD from ai_security.h, the default of
the module parameter ai_security_threat_threshold. -/
def AI_SECURITY_THREAT_SCORE_THRESHOLD : Nat := 75

/-- The fields of struct ai_security_profile that the scoring, decision
and learning code reads or writes. -/
structure Profile where
  pid : Nat
  comm : String
  anomaly_count : Nat
  threat_score : Nat
  current_threat : ThreatLevel
  behavior_score : ℚ
  risk_score : ℚ
  trust_score : ℚ
  network_connection_count : Nat
  privilege_escalation_count : Nat
  event_count : Nat
  deriving DecidableEq, Repr

/-- The profile built by ai_security_create_profile: kzalloc zeroes the
counters, then the security metrics are set to their starting values
(threat_score 0, current_threat NONE, behavior 0.8f, risk 0.2f,
trust 0.7f). -/
def initProfile (pid : Nat) (comm : String) : Profile :=
  { pid := pid
    comm := comm
    anomaly_count := 0
    threat_score := 0
    current_threat := .none
    behavior_score := 4/5
    risk_score := 1/5
    trust_score := 7/10
    network_connection_count := 0
    privilege_escalation_count := 0
    event_count := 0 }

/-- The inputs of an event that ai_security_analyze_event reads: type,
subject pid, description string, and the optional opaque payload
(event_data; NULL becomes Option.none). -/
structure EventInfo where
  etype : EventType
  pid : Nat
  description : String
  event_data : Option String
  deriving DecidableEq, Repr

/-- Character-list test: pat begins hay. -/
def charsBegin : List Char → List Char → Bool
  | [], _ => true
  | _ :: _, [] => false
  | a :: as, b :: bs => a == b && charsBegin as bs

/-- Character-list test: pat occurs somewhere in hay. -/
def charsOccur (pat : List Char) : List Char → Bool
  | [] => charsBegin pat []
  | b :: bs => charsBegin pat (b :: bs) || charsOccur pat bs

/-- The C strstr(hay, pat) != NULL test. -/
def strstrFound (hay pat : String) : Bool :=
  charsOccur pat.toList hay.toList

/-- The switch statement of ai_security_analyze_event: the per-event-type
base contribution to the threat score. -/
def eventBaseScore (e : EventInfo) (p : Profile) : Nat :=
  match e.etype with
  | .fileAccess =>
      if e.event_data.isSome && strstrFound e.description "sensitive" then 30 else 0
  | .networkConnect =>
      if 100 < p.network_connection_count then 25 else 0
  | .privilegeEscalation => 60
  | .processExec =>
      match e.event_data with
      | some exe_path =>
          if strstrFound exe_path "/tmp/" || strstrFound exe_path "/var/tmp/" then 40 else 0
      | Option.none => 0
  | _ => 0

/-- ai_security_classify_threat from ai_security.c. -/
def ai_security_classify_threat (score : Nat) : ThreatLevel :=
  if 90 ≤ score then .critical
  else if 70 ≤ score then .high
  else if 50 ≤ score then .medium
  else if 25 ≤ score then .low
  else .none

/-- The C cast (u32)(q * 100) of the nonnegative float q scaled by 100:
truncation toward zero, i.e. the floor for nonnegative values. -/
def u32OfRat (q : ℚ) : Nat := (⌊q⌋).toNat

/-- The action-selection block of ai_security_analyze_event. -/
def actionFor (score threshold : Nat) : SecAction :=
  if threshold ≤ score then
    if 90 ≤ score then .terminate
    else if 80 ≤ score then .block
    else .quarantine
  else if 50 ≤ score then .warn
  else .allow

/-- The security assessment ai_security_analyze_event writes into the
event: threat score, threat level, confidence, recommended action. -/
structure Analysis where
  threat_score : Nat
  threat_level : ThreatLevel
  confidence : Nat
  recommended_action : SecAction
  deriving DecidableEq, Repr

/-- The body of ai_security_analyze_event when the profile of the event
pid was found: the event assessment and the updated profile, following
the C statement order (event_count++ and the switch on the event type,
the two profile-based adjustments, min with 100, classification,
confidence, action selection, then the profile metric updates). -/
def analyzeWithProfile (e : EventInfo) (p : Profile) (threshold : Nat) :
    Analysis × Profile :=
  let p1 : Profile :=
    { p with
      event_count := p.event_count + 1
      privilege_escalation_count :=
        if e.etype = .privilegeEscalation then p.privilege_escalation_count + 1
        else p.privilege_escalation_count }
  let base := eventBaseScore e p1
  let s1 := if p1.trust_score < 3/10 then base + 20 else base
  let s2 := if 5 < p1.anomaly_count then s1 + 15 else s1
  let score := min s2 100
  let level := ai_security_classify_threat score
  let conf := min (u32OfRat (p1.behavior_score * 100)) 100
  let act := actionFor score threshold
  let p2 : Profile :=
    { p1 with
      threat_score := max p1.threat_score score
      current_threat := ThreatLevel.maxLevel p1.current_threat level
      anomaly_count := if 30 < score then p1.anomaly_count + 1 else p1.anomaly_count
      risk_score := min 1 (p1.risk_score + (score : ℚ) / 1000)
      trust_score := max 0 (p1.trust_score - (score : ℚ) / 500)
      behavior_score := max 0 (p1.behavior_score - (score : ℚ) / 200) }
  (⟨score, level, conf, act⟩, p2)

/-- ai_security_analyze_event: when no profile exists for the event pid
the event is scored 25 / Low / Warn and the confidence keeps the default
50 set by ai_security_create_event; otherwise the found profile drives
the assessment and is updated in place. -/
def ai_security_analyze_event (e : EventInfo) (found : Option Profile)
    (threshold : Nat) : Analysis × Option Profile :=
  match found with
  | Option.none => (⟨25, .low, 50, .warn⟩, Option.none)
  | some p =>
      let r := analyzeWithProfile e p threshold
      (r.1, some r.2)

/-- A retained entry of the global recent-event list: the fields of
struct ai_security_event that the hooks fill and the assessment
ai_security_analyze_event writes before the event is linked into
ai_sec_mgr->recent_events. -/
structure SEvent where
  event_id : Nat
  etype : EventType
  pid : Nat
  timestamp : Nat
  threat_score : Nat
  threat_level : ThreatLevel
  confidence : Nat
  recommended_action : SecAction
  description : String
  deriving DecidableEq, Repr

/-- The statistics counters of struct ai_security_manager. There is no
internal-error counter in the source; these five are all of them. -/
structure Stats where
  total_events_processed : Nat
  threats_detected : Nat
  false_positives : Nat
  threats_blocked : Nat
  processes_monitored : Nat
  deriving DecidableEq, Repr

/-- The sequential state of the module: the manager (profile list, recent
event list, statistics), the atomic event-id counter, and the module
parameters read by the embedded code paths. -/
structure MState where
  profiles : List Profile
  recent_events : List SEvent
  stats : Stats
  next_event_id : Nat
  threat_threshold : Nat
  auto_response : Bool
  learning_enabled : Bool
  deriving DecidableEq, Repr

/-- The state after ai_security_init with default module parameters. -/
def initState : MState :=
  { profiles := []
    recent_events := []
    stats := ⟨0, 0, 0, 0, 0⟩
    next_event_id := 1
    threat_threshold := AI_SECURITY_THREAT_SCORE_THRESHOLD
    auto_response := true
    learning_enabled := true }

/-- ai_security_profile_lookup / ai_security_get_profile: find the
profile whose pid field matches. -/
def lookupProfile (pid : Nat) (ps : List Profile) : Option Profile :=
  ps.find? (fun q => q.pid == pid)

/-- ai_security_is_system_process: pid < 2 || pid == 1. -/
def isSystemProcess (pid : Nat) : Bool := pid < 2

/-- ai_security_create_profile: if a profile for the pid already exists
the function returns 0 without touching the state; otherwise a fresh
profile is appended to the tail of the process_profiles list and
processes_monitored is incremented. The source checks no capacity limit:
AI_SECURITY_MAX_PROFILES is defined in ai_security.h but never used.
(kzalloc failure, returning -ENOMEM, is the only failure path and is not
a capacity check; it is modelled as creation not being attempted.) -/
def ai_security_create_profile (pid : Nat) (comm : String) (st : MState) :
    Int × MState :=
  match lookupProfile pid st.profiles with
  | some _ => (0, st)
  | Option.none =>
      (0, { st with
              profiles := st.profiles ++ [initProfile pid comm]
              stats := { st.stats with
                          processes_monitored := st.stats.processes_monitored + 1 } })

/-- The get-or-create preamble of ai_security_file_permission: look the
profile up and call ai_security_create_profile when it is missing. -/
def getOrCreate (pid : Nat) (comm : String) (st : MState) : MState :=
  match lookupProfile pid st.profiles with
  | some _ => st
  | Option.none => (ai_security_create_profile pid comm st).2

/-- Replace the stored profile of the given pid (the C code updates the
profile in place through its pointer). -/
def setProfile (pid : Nat) (p : Profile) (ps : List Profile) : List Profile :=
  ps.map (fun q => if q.pid == pid then p else q)

/-- The decision block of ai_security_make_decision: 1 (deny) exactly
when the score reaches the threshold, auto response is enabled and the
recommended action is Terminate, Block or Quarantine. -/
def decisionValue (auto_response : Bool) (threshold : Nat) (a : Analysis) : Nat :=
  if threshold ≤ a.threat_score then
    if auto_response then
      match a.recommended_action with
      | .terminate => 1
      | .block => 1
      | .quarantine => 1
      | _ => 0
    else 0
  else 0

/-- The statistics updates at the end of ai_security_make_decision. -/
def statsAfterDecision (s : Stats) (a : Analysis) (decision : Nat) : Stats :=
  let s1 := { s with total_events_processed := s.total_events_processed + 1 }
  let s2 := if 30 < a.threat_score
            then { s1 with threats_detected := s1.threats_detected + 1 }
            else s1
  if decision ≠ 0 ∧ a.recommended_action ≠ .warn
  then { s2 with threats_blocked := s2.threats_blocked + 1 }
  else s2

/-- ai_security_make_decision: analyze the event (looking its profile up
again, as the C code does inside ai_security_analyze_event), derive the
deny/allow decision, and update the manager statistics. Returns the
decision, the event assessment and the new state. Logging
(ai_security_log_threat) is printk/audit I/O and changes no state. -/
def ai_security_make_decision (e : EventInfo) (st : MState) :
    Nat × Analysis × MState :=
  let r := ai_security_analyze_event e (lookupProfile e.pid st.profiles) st.threat_threshold
  let a := r.1
  let d := decisionValue st.auto_response st.threat_threshold a
  let st1 :=
    match r.2 with
    | some p1 => { st with profiles := setProfile e.pid p1 st.profiles }
    | Option.none => st
  (d, a, { st1 with stats := statsAfterDecision st1.stats a d })

/-- The retained-event record a hook appends to recent_events. -/
def mkSEvent (eid : Nat) (now : Nat) (e : EventInfo) (a : Analysis) : SEvent :=
  { event_id := eid
    etype := e.etype
    pid := e.pid
    timestamp := now
    threat_score := a.threat_score
    threat_level := a.threat_level
    confidence := a.confidence
    recommended_action := a.recommended_action
    description := e.description }

/-- The event a file-permission hook submits for the file name fname. -/
def fileEventInfo (pid : Nat) (fname : String) : EventInfo :=
  { etype := .fileAccess
    pid := pid
    description := "File access: " ++ fname
    event_data := some fname }

/-- The part of ai_security_file_permission after the profile has been
resolved: create the event (alloc_ok false models kzalloc failure in
ai_security_create_event, upon which the hook returns 0, allowing),
make the decision, retain the event in recent_events only when its
threat score is above 20, and map a deny decision to -EACCES. -/
def filePermissionCore (alloc_ok : Bool) (now pid : Nat) (fname : String)
    (st1 : MState) : Int × MState :=
  match lookupProfile pid st1.profiles with
  | Option.none => (0, st1)
  | some _ =>
      if alloc_ok = false then (0, st1)
      else
        let eid := st1.next_event_id
        let st2 := { st1 with next_event_id := eid + 1 }
        let e := fileEventInfo pid fname
        let r := ai_security_make_decision e st2
        let st3 := r.2.2
        let st4 :=
          if 20 < r.2.1.threat_score
          then { st3 with recent_events := st3.recent_events ++ [mkSEvent eid now e r.2.1] }
          else st3
        (if r.1 ≠ 0 then (-13 : Int) else 0, st4)

/-- ai_security_file_permission: skip system processes, get or create the
profile of the current task, then run the core path. -/
def ai_security_file_permission (alloc_ok : Bool) (now pid : Nat)
    (comm fname : String) (st : MState) : Int × MState :=
  if isSystemProcess pid then (0, st)
  else filePermissionCore alloc_ok now pid fname (getOrCreate pid comm st)

/-- The event the setuid hook submits for the uid change old -> new. -/
def setuidEventInfo (pid new_uid old_uid : Nat) : EventInfo :=
  { etype := .privilegeEscalation
    pid := pid
    description := "Privilege escalation: uid " ++ toString old_uid
                     ++ " -> " ++ toString new_uid
    event_data := Option.none }

/-- ai_security_task_fix_setuid: skip system processes, skip calls that
change no uid, require an existing profile, create and analyze a
privilege-escalation event, retain it in recent_events only when its
threat score is above 30, and map a deny decision to -EPERM. -/
def ai_security_task_fix_setuid (alloc_ok : Bool) (now pid : Nat) (_comm : String)
    (new_uid old_uid : Nat) (st : MState) : Int × MState :=
  if isSystemProcess pid then (0, st)
  else if new_uid == old_uid then (0, st)
  else
    match lookupProfile pid st.profiles with
    | Option.none => (0, st)
    | some _ =>
        if alloc_ok = false then (0, st)
        else
          let eid := st.next_event_id
          let st2 := { st with next_event_id := eid + 1 }
          let e := setuidEventInfo pid new_uid old_uid
          let r := ai_security_make_decision e st2
          let st3 := r.2.2
          let st4 :=
            if 30 < r.2.1.threat_score
            then { st3 with recent_events := st3.recent_events ++ [mkSEvent eid now e r.2.1] }
            else st3
          (if r.1 ≠ 0 then (-1 : Int) else 0, st4)

/-- ai_security_task_create: requires an existing profile, creates a
process-exec event with no event_data, analyzes it (updating the profile
but no statistics — the hook calls ai_security_analyze_event directly,
not ai_security_make_decision), frees the event, and always returns 0. -/
def ai_security_task_create (alloc_ok : Bool) (pid : Nat) (_comm : String)
    (st : MState) : Int × MState :=
  if isSystemProcess pid then (0, st)
  else
    match lookupProfile pid st.profiles with
    | Option.none => (0, st)
    | some p =>
        if alloc_ok = false then (0, st)
        else
          let st2 := { st with next_event_id := st.next_event_id + 1 }
          let e : EventInfo :=
            { etype := .processExec
              pid := pid
              description := "Process creation/fork"
              event_data := Option.none }
          let r := analyzeWithProfile e p st2.threat_threshold
          (0, { st2 with profiles := setProfile pid r.2 st2.profiles })

/-- The per-profile body of ai_security_learning_work:
if (anomaly_count == 0 && trust_score < 0.8f) then trust_score += 0.01f
and risk_score = max(0.0f, risk_score - 0.005f). Note the guard is the
comparison trust < 0.8, not a clamp of the incremented value. -/
def learningProfileStep (p : Profile) : Profile :=
  if p.anomaly_count = 0 ∧ p.trust_score < 4/5 then
    { p with
      trust_score := p.trust_score + 1/100
      risk_score := max 0 (p.risk_score - 1/200) }
  else p

/-- ai_security_learning_work at time now (milliseconds): when learning
is enabled, drop the recent events older than one hour and apply the
per-profile trust/risk restoration to every live profile. (The daily
threat-intelligence refresh only updates a timestamp and a debug log.) -/
def ai_security_learning_work (now : Nat) (st : MState) : MState :=
  if st.learning_enabled = false then st
  else
    let st1 := { st with
                  recent_events :=
                    st.recent_events.filter
                      (fun ev => decide (now - ev.timestamp ≤ 3600000)) }
    { st1 with profiles := st1.profiles.map learningProfileStep }

/-- The states of the manager reachable from initialization through the
embedded LSM hooks, direct profile creation and learning passes. -/
inductive Reach : MState → Prop where
  | init : Reach initState
  | create (pid : Nat) (comm : String) {st : MState} (h : Reach st) :
      Reach (ai_security_create_profile pid comm st).2
  | filePerm (ok : Bool) (now pid : Nat) (comm fname : String) {st : MState}
      (h : Reach st) : Reach (ai_security_file_permission ok now pid comm fname st).2
  | taskCreate (ok : Bool) (pid : Nat) (comm : String) {st : MState}
      (h : Reach st) : Reach (ai_security_task_create ok pid comm st).2
  | setuid (ok : Bool) (now pid : Nat) (comm : String) (nu ou : Nat) {st : MState}
      (h : Reach st) : Reach (ai_security_task_fix_setuid ok now pid comm nu ou st).2
  | learn (now : Nat) {st : MState} (h : Reach st) :
      Reach (ai_security_learning_work now st)

/-- The action-selection rule exactly as the specification states it:
Terminate if score >= threshold and score >= 90; Block if
score >= threshold and 80 <= score < 90; Quarantine if
threshold <= score < 80; Warn if 50 <= score < threshold;
otherwise Allow. -/
def specRecommendedAction (score threshold : Nat) : SecAction :=
  if threshold ≤ score ∧ 90 ≤ score then .terminate
  else if threshold ≤ score ∧ 80 ≤ score ∧ score < 90 then .block
  else if threshold ≤ score ∧ score < 80 then .quarantine
  else if 50 ≤ score ∧ score < threshold then .warn
  else .allow

/-- Extraction: the assessment analyzeWithProfile returns carries the
action computed by actionFor on its own threat score. -/
lemma analyze_action_eq (e : EventInfo) (p : Profile) (threshold : Nat) :
    (analyzeWithProfile e p threshold).1.recommended_action =
      actionFor (analyzeWithProfile e p threshold).1.threat_score threshold := rfl

/-- Extraction: the assessment carries the level computed by
ai_security_classify_threat on its own threat score. -/
lemma analyze_level_eq (e : EventInfo) (p : Profile) (threshold : Nat) :
    (analyzeWithProfile e p threshold).1.threat_level =
      ai_security_classify_threat (analyzeWithProfile e p threshold).1.threat_score := rfl

/-- C1: Threat-level classification is a total monotone step function of
the score: every score maps to exactly one level, with score >= 90 giving
Critical, 70 <= score < 90 High, 50 <= score < 70 Medium,
25 <= score < 50 Low and score < 25 None; and larger scores never map to
strictly lower levels (levels compared by their enum value). -/
theorem c1_classify_threat_total_monotone :
    (∀ s : Nat,
      (ai_security_classify_threat s = .critical ↔ 90 ≤ s) ∧
      (ai_security_classify_threat s = .high ↔ 70 ≤ s ∧ s < 90) ∧
      (ai_security_classify_threat s = .medium ↔ 50 ≤ s ∧ s < 70) ∧
      (ai_security_classify_threat s = .low ↔ 25 ≤ s ∧ s < 50) ∧
      (ai_security_classify_threat s = .none ↔ s < 25)) ∧
    ∀ s1 s2 : Nat, s1 ≤ s2 →
      (ai_security_classify_threat s1).toNat ≤ (ai_security_classify_threat s2).toNat := by
  constructor
  · intro s
    unfold ai_security_classify_threat
    split_ifs <;> simp <;> omega
  · intro s1 s2 h
    unfold ai_security_classify_threat
    split_ifs <;> simp [ThreatLevel.toNat] <;> omega

/-- Witness for C1 at concrete scores: 80 classifies as High, and the
level of 40 is at most the level of 60. -/
theorem c1_classify_threat_total_monotone_witness :
    ai_security_classify_threat 80 = .high ∧
    (ai_security_classify_threat 40).toNat ≤ (ai_security_classify_threat 60).toNat :=
  ⟨(c1_classify_threat_total_monotone.1 80).2.1.mpr (by omega),
   c1_classify_threat_total_monotone.2 40 60 (by omega)⟩

/-- C3: for every analyzed event the recommended action written into the
event equals the specification rule specRecommendedAction applied to the
threat score of the event and the configured threshold (and the action
block of the source agrees with the specification rule at every score and
threshold). -/
theorem c3_recommended_action_rule :
    (∀ score threshold : Nat,
        actionFor score threshold = specRecommendedAction score threshold) ∧
    ∀ (e : EventInfo) (p : Profile) (threshold : Nat),
      (analyzeWithProfile e p threshold).1.recommended_action =
        specRecommendedAction (analyzeWithProfile e p threshold).1.threat_score threshold := by
  have hmain : ∀ score threshold : Nat,
      actionFor score threshold = specRecommendedAction score threshold := by
    intro s t
    unfold actionFor specRecommendedAction
    split_ifs <;> first | rfl | omega
  exact ⟨hmain, fun e p threshold => (analyze_action_eq e p threshold).trans (hmain _ _)⟩

/-- The sensitive-pattern heuristic of the FileAccess case: the event
carries a payload and its description contains "sensitive". -/
def sensitiveHeuristic (e : EventInfo) : Bool :=
  e.event_data.isSome && strstrFound e.description "sensitive"

/-- The transient/writable-directory heuristic of the ProcessExec case:
the executable path contains /tmp/ or /var/tmp/. -/
def transientDirectory (path : String) : Bool :=
  strstrFound path "/tmp/" || strstrFound path "/var/tmp/"

/-- The per-event-type base score exactly as the specification lists it:
FileAccess 0 plus 30 under the sensitive-pattern heuristic;
NetworkConnect 25 when the connection counter exceeds 100;
PrivilegeEscalation fixed 60; ProcessExec 40 when the executable path
lies under a transient directory; other types 0. -/
def specBaseScore (e : EventInfo) (p : Profile) : Nat :=
  match e.etype with
  | .fileAccess => if sensitiveHeuristic e then 30 else 0
  | .networkConnect => if 100 < p.network_connection_count then 25 else 0
  | .privilegeEscalation => 60
  | .processExec =>
      if (match e.event_data with
          | some exe_path => transientDirectory exe_path
          | Option.none => false) then 40 else 0
  | _ => 0

/-- The threat score exactly as the specification states it: the base
plus 20 if trust < 0.3 plus 15 if anomaly_count > 5, clamped to 100. -/
def specThreatScore (e : EventInfo) (p : Profile) : Nat :=
  min (specBaseScore e p
        + (if p.trust_score < 3/10 then 20 else 0)
        + (if 5 < p.anomaly_count then 15 else 0)) 100

/-- The base score reads only the event and the connection counter, so
the event_count and privilege-escalation bumps do not change it. -/
lemma base_ignores_counters (e : EventInfo) (p : Profile) (n m : Nat) :
    eventBaseScore e
        { p with event_count := n, privilege_escalation_count := m }
      = eventBaseScore e p := by
  rcases e with ⟨t, pid, d, dat⟩
  cases t <;> rfl

/-- The code-side base score equals the specification-side base score. -/
lemma base_eq_spec (e : EventInfo) (p : Profile) :
    eventBaseScore e p = specBaseScore e p := by
  rcases e with ⟨t, pid, d, dat⟩
  cases t <;> cases dat <;>
    simp [eventBaseScore, specBaseScore, sensitiveHeuristic, transientDirectory]

/-- The threat score of the analysis as a closed formula over the input
profile. -/
lemma analyze_score_eq (e : EventInfo) (p : Profile) (threshold : Nat) :
    (analyzeWithProfile e p threshold).1.threat_score = specThreatScore e p := by
  have hb := base_ignores_counters e p (p.event_count + 1)
      (if e.etype = .privilegeEscalation then p.privilege_escalation_count + 1
       else p.privilege_escalation_count)
  simp only [analyzeWithProfile, specThreatScore]
  rw [hb, base_eq_spec]
  split_ifs <;> omega

/-- Subject of specification Scenario B: an existing profile whose trust
has decayed to 0.2. -/
def scenarioBProfile : Profile :=
  { initProfile 1001 "scenB" with trust_score := 1/5 }

/-- Event of specification Scenario B: a privilege escalation by that
subject. -/
def scenarioBEvent : EventInfo :=
  { etype := .privilegeEscalation
    pid := 1001
    description := "Privilege escalation: uid 1000 -> 0"
    event_data := Option.none }

/-- C2: for every event and profile snapshot the threat score equals the
per-event-type base plus 20 when trust < 0.3 plus 15 when
anomaly_count > 5, clamped to [0,100]; and in particular a subject with
trust 0.2 emitting PrivilegeEscalation scores 60 + 20 = 80, level High,
recommended action Block under the default threshold 75. -/
theorem c2_threat_score_formula :
    (∀ (e : EventInfo) (p : Profile) (threshold : Nat),
        (analyzeWithProfile e p threshold).1.threat_score = specThreatScore e p ∧
        (analyzeWithProfile e p threshold).1.threat_score ≤ 100) ∧
    ((analyzeWithProfile scenarioBEvent scenarioBProfile
        AI_SECURITY_THREAT_SCORE_THRESHOLD).1.threat_score = 80 ∧
     (analyzeWithProfile scenarioBEvent scenarioBProfile
        AI_SECURITY_THREAT_SCORE_THRESHOLD).1.threat_level = .high ∧
     (analyzeWithProfile scenarioBEvent scenarioBProfile
        AI_SECURITY_THREAT_SCORE_THRESHOLD).1.recommended_action = .block) := by
  have hscen : (analyzeWithProfile scenarioBEvent scenarioBProfile
      AI_SECURITY_THREAT_SCORE_THRESHOLD).1.threat_score = 80 := by
    rw [analyze_score_eq]
    simp only [specThreatScore, specBaseScore, scenarioBEvent, scenarioBProfile, initProfile]
    norm_num
  refine ⟨fun e p threshold => ⟨analyze_score_eq e p threshold, ?_⟩, hscen, ?_, ?_⟩
  · rw [analyze_score_eq]; unfold specThreatScore; omega
  · rw [analyze_level_eq, hscen]; rfl
  · rw [analyze_action_eq, hscen]; rfl

/-- C10: a freshly created profile starts with threat_score 0,
current_threat None, behavior 0.8, risk 0.2, trust 0.7; hence the first
event of a brand-new subject gets neither the low-trust +20 nor the
anomaly-history +15 adjustment (its score is the bare base score) and
its confidence is 80, derived from behavior_score 0.8. -/
theorem c10_new_profile_first_event :
    ∀ (pid : Nat) (comm : String),
      (initProfile pid comm).threat_score = 0 ∧
      (initProfile pid comm).current_threat = .none ∧
      (initProfile pid comm).behavior_score = 4/5 ∧
      (initProfile pid comm).risk_score = 1/5 ∧
      (initProfile pid comm).trust_score = 7/10 ∧
      ∀ (e : EventInfo) (threshold : Nat),
        (analyzeWithProfile e (initProfile pid comm) threshold).1.threat_score
            = min (specBaseScore e (initProfile pid comm)) 100 ∧
        (analyzeWithProfile e (initProfile pid comm) threshold).1.confidence = 80 := by
  intro pid comm
  refine ⟨rfl, rfl, rfl, rfl, rfl, fun e threshold => ⟨?_, ?_⟩⟩
  · rw [analyze_score_eq]
    simp only [specThreatScore, initProfile]
    norm_num
  · simp only [analyzeWithProfile, initProfile, u32OfRat]
    norm_num
    decide

/-- Extraction: the confidence of the analysis is the truncated and
clamped scaling of the behavior score of the input profile. -/
lemma analyze_confidence_eq (e : EventInfo) (p : Profile) (threshold : Nat) :
    (analyzeWithProfile e p threshold).1.confidence =
      min (⌊p.behavior_score * 100⌋).toNat 100 := rfl

/-- A profile whose behavior score scales to 12.5, whose fractional part
is exactly one half. -/
def lowBehaviorProfile : Profile :=
  { initProfile 9 "cx9" with behavior_score := 1/8 }

/-- C9 counterexample: at behavior_score 1/8 the scaled value is 12.5,
whose rounding is 13, but the C cast (u32)(behavior_score * 100)
truncates and the reported confidence is 12 — the confidence is not
round(behavior_score * 100). -/
theorem c9_counterexample :
    lowBehaviorProfile.behavior_score * 100 = 25/2 ∧
    round (lowBehaviorProfile.behavior_score * 100) = 13 ∧
    (analyzeWithProfile (fileEventInfo 9 "data") lowBehaviorProfile
        AI_SECURITY_THREAT_SCORE_THRESHOLD).1.confidence = 12 ∧
    (analyzeWithProfile (fileEventInfo 9 "data") lowBehaviorProfile
        AI_SECURITY_THREAT_SCORE_THRESHOLD).1.confidence ≠
      Int.toNat (round (lowBehaviorProfile.behavior_score * 100)) := by
  have h1 : lowBehaviorProfile.behavior_score * 100 = 25/2 := by
    simp only [lowBehaviorProfile, initProfile]
    norm_num
  have h2 : round (lowBehaviorProfile.behavior_score * 100) = 13 := by
    rw [h1, round_eq]
    norm_num [Int.floor_eq_iff]
  have h3 : (analyzeWithProfile (fileEventInfo 9 "data") lowBehaviorProfile
      AI_SECURITY_THREAT_SCORE_THRESHOLD).1.confidence = 12 := by
    rw [analyze_confidence_eq, h1]
    norm_num [Int.floor_eq_iff]
    decide
  exact ⟨h1, h2, h3, by rw [h3, h2]; decide⟩

/-- C9 amended: the reported confidence is the truncation (floor) of
behavior_score * 100 clamped above at 100 — never more than the scaled
behavior score, so a fractional part is dropped, not rounded up. -/
theorem c9_confidence_truncated (e : EventInfo) (p : Profile) (threshold : Nat)
    (h : 0 ≤ p.behavior_score) :
    ((analyzeWithProfile e p threshold).1.confidence : ℚ) ≤ p.behavior_score * 100 ∧
    (analyzeWithProfile e p threshold).1.confidence ≤ 100 ∧
    (⌊p.behavior_score * 100⌋ ≤ 100 →
      ((analyzeWithProfile e p threshold).1.confidence : ℤ) = ⌊p.behavior_score * 100⌋) := by
  have hf0 : (0 : ℤ) ≤ ⌊p.behavior_score * 100⌋ := by
    apply Int.floor_nonneg.mpr
    positivity
  rw [analyze_confidence_eq]
  refine ⟨?_, min_le_right _ _, ?_⟩
  · calc ((min (⌊p.behavior_score * 100⌋).toNat 100 : Nat) : ℚ)
        ≤ ((⌊p.behavior_score * 100⌋).toNat : ℚ) := by
          exact_mod_cast min_le_left _ _
      _ = ((⌊p.behavior_score * 100⌋ : ℤ) : ℚ) := by
          exact_mod_cast Int.toNat_of_nonneg hf0
      _ ≤ p.behavior_score * 100 := Int.floor_le _
  · intro hle
    have : (⌊p.behavior_score * 100⌋).toNat ≤ 100 := by omega
    rw [min_eq_left this]
    omega

/-- Witness for C9 amended at the fresh profile (behavior 0.8): its
confidence is bounded by 80 and equals the floor 80. -/
theorem c9_confidence_truncated_witness :
    ((analyzeWithProfile (fileEventInfo 3 "w") (initProfile 3 "w9")
        AI_SECURITY_THREAT_SCORE_THRESHOLD).1.confidence : ℚ) ≤
      (initProfile 3 "w9").behavior_score * 100 ∧
    (analyzeWithProfile (fileEventInfo 3 "w") (initProfile 3 "w9")
        AI_SECURITY_THREAT_SCORE_THRESHOLD).1.confidence ≤ 100 ∧
    (⌊(initProfile 3 "w9").behavior_score * 100⌋ ≤ 100 →
      ((analyzeWithProfile (fileEventInfo 3 "w") (initProfile 3 "w9")
          AI_SECURITY_THREAT_SCORE_THRESHOLD).1.confidence : ℤ) =
        ⌊(initProfile 3 "w9").behavior_score * 100⌋) :=
  c9_confidence_truncated (fileEventInfo 3 "w") (initProfile 3 "w9")
    AI_SECURITY_THREAT_SCORE_THRESHOLD (by norm_num [initProfile])

/-- One learning pass keeps the trust of any profile below 0.81. -/
lemma learning_step_trust_lt (p : Profile) (h : p.trust_score < 81/100) :
    (learningProfileStep p).trust_score < 81/100 := by
  unfold learningProfileStep
  split_ifs with hg
  · simp only
    linarith [hg.2]
  · exact h

/-- A profile whose trust 0.799 is within the claimed bound 0.8 but whose
next learning pass overshoots it. -/
def overshootProfile : Profile :=
  { initProfile 4 "cx4" with trust_score := 799/1000 }

/-- C4 counterexample: a profile with anomaly_count 0 and trust
0.799 <= 0.8 is incremented by a learning pass to 0.809 > 0.8 — the
source guards with trust < 0.8 but does not clamp the incremented value,
so trust does exceed 0.8 through this path. -/
theorem c4_counterexample :
    overshootProfile.anomaly_count = 0 ∧
    overshootProfile.trust_score ≤ 4/5 ∧
    (learningProfileStep overshootProfile).trust_score = 809/1000 ∧
    ¬ ((learningProfileStep overshootProfile).trust_score ≤ 4/5) := by
  have hstep : (learningProfileStep overshootProfile).trust_score = 809/1000 := by
    simp only [learningProfileStep, overshootProfile, initProfile]
    norm_num
  refine ⟨rfl, by simp only [overshootProfile, initProfile]; norm_num, hstep, ?_⟩
  rw [hstep]
  norm_num

/-- C4 amended, for every profile without restriction: a learning pass
increases trust by 0.01 and decreases risk by 0.005 (clamped at 0)
exactly when anomaly_count == 0 and trust < 0.8; a profile with
trust >= 0.8 — including one in the reachable overshoot band
(0.8, 0.81) — is left entirely unchanged; and starting from any
trust <= 0.8, any number of passes keeps trust strictly below 0.81
(one pass from just below 0.8 may overshoot 0.8 by up to 0.01). -/
theorem c4_learning_trust_bounded (p : Profile) :
    (4/5 ≤ p.trust_score → learningProfileStep p = p) ∧
    ((learningProfileStep p).trust_score = p.trust_score + 1/100 ∧
       (learningProfileStep p).risk_score = max 0 (p.risk_score - 1/200) ↔
     p.anomaly_count = 0 ∧ p.trust_score < 4/5) ∧
    (p.trust_score ≤ 4/5 →
      ∀ n : Nat, (learningProfileStep^[n] p).trust_score < 81/100) := by
  refine ⟨?_, ⟨?_, ?_⟩, ?_⟩
  · intro h8
    unfold learningProfileStep
    rw [if_neg]
    rintro ⟨-, hlt⟩
    linarith
  · rintro ⟨ht, -⟩
    by_cases hg : p.anomaly_count = 0 ∧ p.trust_score < 4/5
    · exact hg
    · exfalso
      unfold learningProfileStep at ht
      rw [if_neg hg] at ht
      linarith [ht]
  · rintro ⟨ha, hlt⟩
    unfold learningProfileStep
    rw [if_pos ⟨ha, hlt⟩]
    exact ⟨rfl, rfl⟩
  · intro h n
    induction n with
    | zero => simpa using lt_of_le_of_lt h (by norm_num)
    | succ n ih =>
        rw [Function.iterate_succ_apply']
        exact learning_step_trust_lt _ ih

/-- Witness for C4 amended: a profile inside the overshoot band (trust
0.805 > 0.8) is left unchanged by a pass, the increment
characterization holds at the fresh profile (trust 0.7), and ten passes
from the fresh profile stay below 0.81. -/
theorem c4_learning_trust_bounded_witness :
    learningProfileStep { initProfile 6 "w4b" with trust_score := 805/1000 }
        = { initProfile 6 "w4b" with trust_score := 805/1000 } ∧
    ((learningProfileStep (initProfile 2 "w4")).trust_score =
        (initProfile 2 "w4").trust_score + 1/100 ∧
       (learningProfileStep (initProfile 2 "w4")).risk_score =
        max 0 ((initProfile 2 "w4").risk_score - 1/200) ↔
     (initProfile 2 "w4").anomaly_count = 0 ∧
        (initProfile 2 "w4").trust_score < 4/5) ∧
    (learningProfileStep^[10] (initProfile 2 "w4")).trust_score < 81/100 :=
  ⟨(c4_learning_trust_bounded
      { initProfile 6 "w4b" with trust_score := 805/1000 }).1
      (by norm_num [initProfile]),
   (c4_learning_trust_bounded (initProfile 2 "w4")).2.1,
   (c4_learning_trust_bounded (initProfile 2 "w4")).2.2
      (by norm_num [initProfile]) 10⟩

/-- A state holding one monitored profile (pid 55). -/
def profiledState : MState := (ai_security_create_profile 55 "c" initState).2

/-- C6 counterexample: when event allocation fails in the file-permission
hook for a monitored process, the hook returns 0 (Allow — it fails open)
and the manager state, in particular every statistics counter, is left
exactly unchanged. No internal-error counter exists in the source
(struct ai_security_manager has only total_events_processed,
threats_detected, false_positives, threats_blocked, processes_monitored)
and none of them is touched, so the failure is silently dropped from the
statistics, contradicting the claim. -/
theorem c6_counterexample :
    (ai_security_file_permission false 0 55 "c" "g" profiledState).1 = 0 ∧
    (ai_security_file_permission false 0 55 "c" "g" profiledState).2 = profiledState ∧
    (ai_security_file_permission false 0 55 "c" "g" profiledState).2.stats =
      profiledState.stats :=
  ⟨rfl, rfl, rfl⟩

/-- The get-or-create preamble never touches the recent-event log or the
four event-processing statistics counters; profile creation can only bump
processes_monitored. -/
lemma getOrCreate_log_and_event_stats (pid : Nat) (comm : String) (st : MState) :
    (getOrCreate pid comm st).recent_events = st.recent_events ∧
    (getOrCreate pid comm st).stats.total_events_processed
        = st.stats.total_events_processed ∧
    (getOrCreate pid comm st).stats.threats_detected = st.stats.threats_detected ∧
    (getOrCreate pid comm st).stats.threats_blocked = st.stats.threats_blocked ∧
    (getOrCreate pid comm st).stats.false_positives = st.stats.false_positives := by
  unfold getOrCreate ai_security_create_profile
  cases hl : lookupProfile pid st.profiles <;> simp

/-- C6 amended, for every call of the file-permission hook in which
event creation fails from allocation exhaustion: the hook returns 0 (the
Allow decision, failing open) and the failure itself changes nothing —
the resulting state is exactly the state left by the get-or-create
preamble (and exactly the pre-call state whenever the subject already
had a profile), so the recent-event log and the four event-processing
statistics counters (total_events_processed, threats_detected,
threats_blocked, false_positives) are never updated and no
internal-error counter exists to be incremented; the only possible state
change is the profile insertion (with its processes_monitored bump) that
the preamble performed before the event allocation failed. -/
theorem c6_alloc_failure_fails_open (now pid : Nat) (comm fname : String)
    (st : MState) :
    (ai_security_file_permission false now pid comm fname st).1 = 0 ∧
    ((ai_security_file_permission false now pid comm fname st).2 = st ∨
      (ai_security_file_permission false now pid comm fname st).2
        = getOrCreate pid comm st) ∧
    (ai_security_file_permission false now pid comm fname st).2.recent_events
        = st.recent_events ∧
    (ai_security_file_permission false now pid comm fname st).2.stats.total_events_processed
        = st.stats.total_events_processed ∧
    (ai_security_file_permission false now pid comm fname st).2.stats.threats_detected
        = st.stats.threats_detected ∧
    (ai_security_file_permission false now pid comm fname st).2.stats.threats_blocked
        = st.stats.threats_blocked ∧
    (ai_security_file_permission false now pid comm fname st).2.stats.false_positives
        = st.stats.false_positives ∧
    (∀ p : Profile, lookupProfile pid st.profiles = some p →
      (ai_security_file_permission false now pid comm fname st).2 = st) := by
  obtain ⟨hgr, hg1, hg2, hg3, hg4⟩ := getOrCreate_log_and_event_stats pid comm st
  by_cases hs : isSystemProcess pid = true
  · have hres : ai_security_file_permission false now pid comm fname st = (0, st) := by
      unfold ai_security_file_permission
      rw [if_pos hs]
    rw [hres]
    exact ⟨rfl, Or.inl rfl, rfl, rfl, rfl, rfl, rfl, fun p _ => rfl⟩
  · have hres : ai_security_file_permission false now pid comm fname st
        = (0, getOrCreate pid comm st) := by
      unfold ai_security_file_permission
      rw [if_neg hs]
      unfold filePermissionCore
      cases hl : lookupProfile pid (getOrCreate pid comm st).profiles with
      | none => rfl
      | some p => rfl
    rw [hres]
    refine ⟨rfl, Or.inr rfl, hgr, hg1, hg2, hg3, hg4, fun p hp => ?_⟩
    have hgc : getOrCreate pid comm st = st := by
      unfold getOrCreate
      rw [hp]
    rw [hgc]

/-- Witness for C6 amended at the one-profile state, where the subject
is already profiled: the failing call returns 0 and the state — hence
every counter — is exactly unchanged. -/
theorem c6_alloc_failure_fails_open_witness :
    (ai_security_file_permission false 0 55 "c" "f" profiledState).1 = 0 ∧
    (ai_security_file_permission false 0 55 "c" "f" profiledState).2 = profiledState :=
  ⟨(c6_alloc_failure_fails_open 0 55 "c" "f" profiledState).1,
   (c6_alloc_failure_fails_open 0 55 "c" "f" profiledState).2.2.2.2.2.2.2
     (initProfile 55 "c") rfl⟩

/-- When no profile exists for the pid, ai_security_create_profile
returns 0 and appends a fresh profile, incrementing
processes_monitored; there is no capacity check. -/
lemma create_profile_of_not_found (pid : Nat) (comm : String) (st : MState)
    (h : lookupProfile pid st.profiles = Option.none) :
    (ai_security_create_profile pid comm st).1 = 0 ∧
    (ai_security_create_profile pid comm st).2.profiles
        = st.profiles ++ [initProfile pid comm] ∧
    (ai_security_create_profile pid comm st).2.stats.processes_monitored
        = st.stats.processes_monitored + 1 := by
  unfold ai_security_create_profile
  rw [h]
  exact ⟨rfl, rfl, rfl⟩

/-- A state already holding AI_SECURITY_MAX_PROFILES (256) live
profiles. -/
def fullState : MState :=
  { initState with
      profiles := (List.range 256).map (fun n => initProfile n "p")
      stats := ⟨0, 0, 0, 0, 256⟩ }

/-- C7 counterexample: in a state holding the configured maximum number
of live profiles, profile creation for a new subject id does not fail
with any error — it returns 0 and creates a 257th profile. The constant
AI_SECURITY_MAX_PROFILES is defined in ai_security.h but never checked
by ai_security_create_profile. -/
theorem c7_counterexample :
    fullState.profiles.length = AI_SECURITY_MAX_PROFILES ∧
    (ai_security_create_profile 1000 "new" fullState).1 = 0 ∧
    (ai_security_create_profile 1000 "new" fullState).2.profiles.length =
      AI_SECURITY_MAX_PROFILES + 1 := by
  have hn : lookupProfile 1000 fullState.profiles = Option.none := by decide
  have hc := create_profile_of_not_found 1000 "new" fullState hn
  refine ⟨?_, hc.1, ?_⟩
  · simp [fullState, AI_SECURITY_MAX_PROFILES]
  · rw [hc.2.1]
    simp [fullState, AI_SECURITY_MAX_PROFILES]

/-- C7 amended: profile creation never fails for capacity reasons: for
every state — in particular one already holding
AI_SECURITY_MAX_PROFILES profiles — creation for a not-yet-profiled
subject id returns 0 (success) and appends a new profile, growing the
profile list by one. -/
theorem c7_no_capacity_limit (pid : Nat) (comm : String) (st : MState)
    (h : lookupProfile pid st.profiles = Option.none) :
    (ai_security_create_profile pid comm st).1 = 0 ∧
    (ai_security_create_profile pid comm st).2.profiles.length
        = st.profiles.length + 1 := by
  obtain ⟨h1, h2, -⟩ := create_profile_of_not_found pid comm st h
  refine ⟨h1, ?_⟩
  rw [h2]
  simp

/-- Witness for C7 amended at the 256-profile state. -/
theorem c7_no_capacity_limit_witness :
    (ai_security_create_profile 1000 "w7" fullState).1 = 0 ∧
    (ai_security_create_profile 1000 "w7" fullState).2.profiles.length
        = fullState.profiles.length + 1 :=
  c7_no_capacity_limit 1000 "w7" fullState (by decide)

/-- find? skips a first block that contains no match. -/
lemma find?_append_of_none {α : Type} (f : α → Bool) (l l' : List α)
    (h : l.find? f = Option.none) : (l ++ l').find? f = l'.find? f := by
  induction l with
  | nil => rfl
  | cons a t ih =>
      rw [List.cons_append]
      cases hfa : f a with
      | true =>
          rw [List.find?_cons_of_pos _ hfa] at h
          exact absurd h (by simp)
      | false =>
          rw [List.find?_cons_of_neg _ (by simp [hfa])] at h
          rw [List.find?_cons_of_neg _ (by simp [hfa])]
          exact ih h

/-- The profile the file-permission hook scores against: the stored one
when the subject is known, the fresh one otherwise. -/
def resolvedProfile (pid : Nat) (comm : String) (st : MState) : Profile :=
  match lookupProfile pid st.profiles with
  | some p => p
  | Option.none => initProfile pid comm

/-- getOrCreate only touches the profile list and the statistics. -/
lemma getOrCreate_preserves (pid : Nat) (comm : String) (st : MState) :
    (getOrCreate pid comm st).recent_events = st.recent_events ∧
    (getOrCreate pid comm st).next_event_id = st.next_event_id ∧
    (getOrCreate pid comm st).threat_threshold = st.threat_threshold ∧
    (getOrCreate pid comm st).auto_response = st.auto_response := by
  unfold getOrCreate ai_security_create_profile
  cases hl : lookupProfile pid st.profiles <;> simp

/-- After getOrCreate, the lookup finds exactly the resolved profile. -/
lemma lookup_getOrCreate (pid : Nat) (comm : String) (st : MState) :
    lookupProfile pid (getOrCreate pid comm st).profiles
      = some (resolvedProfile pid comm st) := by
  unfold getOrCreate resolvedProfile
  cases hl : lookupProfile pid st.profiles with
  | some p => exact hl
  | none =>
      unfold ai_security_create_profile
      rw [hl]
      show lookupProfile pid (st.profiles ++ [initProfile pid comm]) = _
      unfold lookupProfile at hl ⊢
      rw [find?_append_of_none _ _ _ hl]
      simp [initProfile]

/-- ai_security_make_decision written out for a found profile. -/
lemma make_decision_found (e : EventInfo) (st : MState) (p : Profile)
    (h : lookupProfile e.pid st.profiles = some p) :
    ai_security_make_decision e st =
      (decisionValue st.auto_response st.threat_threshold
          (analyzeWithProfile e p st.threat_threshold).1,
       (analyzeWithProfile e p st.threat_threshold).1,
       { st with
          profiles := setProfile e.pid
            (analyzeWithProfile e p st.threat_threshold).2 st.profiles
          stats := statsAfterDecision st.stats
            (analyzeWithProfile e p st.threat_threshold).1
            (decisionValue st.auto_response st.threat_threshold
              (analyzeWithProfile e p st.threat_threshold).1) }) := by
  unfold ai_security_make_decision ai_security_analyze_event
  rw [h]

/-- A privilege-escalation event always scores between 60 and 100. -/
lemma privesc_score_bounds (e : EventInfo) (p : Profile) (threshold : Nat)
    (h : e.etype = .privilegeEscalation) :
    60 ≤ (analyzeWithProfile e p threshold).1.threat_score ∧
    (analyzeWithProfile e p threshold).1.threat_score ≤ 100 := by
  rw [analyze_score_eq]
  simp only [specThreatScore, specBaseScore, h]
  split_ifs <;> omega

/-- The threat score the file-permission hook computes for the submitted
event, as a function of the pre-call state. -/
def fileSubmissionScore (pid : Nat) (comm fname : String) (st : MState) : Nat :=
  (analyzeWithProfile (fileEventInfo pid fname) (resolvedProfile pid comm st)
    st.threat_threshold).1.threat_score

/-- The retained-event record the file-permission hook would append. -/
def fileSubmissionEvent (now pid : Nat) (comm fname : String) (st : MState) : SEvent :=
  mkSEvent st.next_event_id now (fileEventInfo pid fname)
    (analyzeWithProfile (fileEventInfo pid fname) (resolvedProfile pid comm st)
      st.threat_threshold).1

/-- The retained-event record the setuid hook would append. -/
def setuidSubmissionEvent (now pid : Nat) (comm : String) (new_uid old_uid : Nat)
    (st : MState) : SEvent :=
  mkSEvent st.next_event_id now (setuidEventInfo pid new_uid old_uid)
    (analyzeWithProfile (setuidEventInfo pid new_uid old_uid)
      (resolvedProfile pid comm st) st.threat_threshold).1

/-- C5: an event submitted through the file-access hook is retained in
the global recent-event log exactly when its threat score is above 20
(otherwise the log is unchanged and the event is freed), and an event
submitted through the privilege-escalation hook is always retained with
a score above 20 — its score is at least 60, so the stricter
score > 30 filter of that hook agrees with score > 20 on every event it
can ever produce, and no event with score <= 20 ever enters the log. -/
lemma filePermissionCore_found (now pid : Nat) (fname : String) (st1 : MState)
    (p : Profile) (h : lookupProfile pid st1.profiles = some p) :
    (filePermissionCore true now pid fname st1).2.recent_events =
      if 20 < (analyzeWithProfile (fileEventInfo pid fname) p
                st1.threat_threshold).1.threat_score
      then st1.recent_events ++
        [mkSEvent st1.next_event_id now (fileEventInfo pid fname)
          (analyzeWithProfile (fileEventInfo pid fname) p st1.threat_threshold).1]
      else st1.recent_events := by
  have h2 : lookupProfile (fileEventInfo pid fname).pid
      (MState.mk st1.profiles st1.recent_events st1.stats (st1.next_event_id + 1)
        st1.threat_threshold st1.auto_response st1.learning_enabled).profiles = some p := h
  have hmd := make_decision_found (fileEventInfo pid fname)
      (MState.mk st1.profiles st1.recent_events st1.stats (st1.next_event_id + 1)
        st1.threat_threshold st1.auto_response st1.learning_enabled) p h2
  unfold filePermissionCore
  rw [h]
  dsimp only
  rw [hmd]
  dsimp only
  split_ifs <;> first | rfl | simp_all

/-- The setuid hook for a monitored, profiled process with an actual uid
change and successful allocation: the event is retained exactly when its
score is above 30. -/
lemma setuid_hook_found (now pid new_uid old_uid : Nat) (comm : String)
    (st : MState) (p : Profile) (h : lookupProfile pid st.profiles = some p)
    (hsys : isSystemProcess pid = false) (hbe : (new_uid == old_uid) = false) :
    (ai_security_task_fix_setuid true now pid comm new_uid old_uid st).2.recent_events =
      if 30 < (analyzeWithProfile (setuidEventInfo pid new_uid old_uid) p
                st.threat_threshold).1.threat_score
      then st.recent_events ++
        [mkSEvent st.next_event_id now (setuidEventInfo pid new_uid old_uid)
          (analyzeWithProfile (setuidEventInfo pid new_uid old_uid) p st.threat_threshold).1]
      else st.recent_events := by
  have h2 : lookupProfile (setuidEventInfo pid new_uid old_uid).pid
      (MState.mk st.profiles st.recent_events st.stats (st.next_event_id + 1)
        st.threat_threshold st.auto_response st.learning_enabled).profiles = some p := h
  have hmd := make_decision_found (setuidEventInfo pid new_uid old_uid)
      (MState.mk st.profiles st.recent_events st.stats (st.next_event_id + 1)
        st.threat_threshold st.auto_response st.learning_enabled) p h2
  unfold ai_security_task_fix_setuid
  rw [hsys, hbe]
  dsimp only
  rw [h]
  dsimp only
  rw [hmd]
  dsimp only
  split_ifs <;> first | rfl | simp_all

/-- C5: an event submitted through the file-access hook is retained in
the global recent-event log exactly when its threat score is above 20
(otherwise the log is unchanged and the event is freed), and an event
submitted through the privilege-escalation hook is always retained with
a score above 20 — its score is at least 60, so the stricter
score > 30 filter of that hook agrees with score > 20 on every event it
can ever produce, and no event with score <= 20 ever enters the log. -/
theorem c5_event_retention (now pid : Nat) (comm fname : String)
    (new_uid old_uid : Nat) (st : MState) (hpid : 2 ≤ pid) :
    ((ai_security_file_permission true now pid comm fname st).2.recent_events =
      if 20 < fileSubmissionScore pid comm fname st
      then st.recent_events ++ [fileSubmissionEvent now pid comm fname st]
      else st.recent_events) ∧
    (∀ p : Profile, lookupProfile pid st.profiles = some p → new_uid ≠ old_uid →
      (ai_security_task_fix_setuid true now pid comm new_uid old_uid st).2.recent_events
          = st.recent_events ++ [setuidSubmissionEvent now pid comm new_uid old_uid st] ∧
      20 < (setuidSubmissionEvent now pid comm new_uid old_uid st).threat_score) := by
  have hsys : isSystemProcess pid = false := by
    simp only [isSystemProcess, decide_eq_false_iff_not]
    omega
  constructor
  · have hcore : ai_security_file_permission true now pid comm fname st
        = filePermissionCore true now pid fname (getOrCreate pid comm st) := by
      unfold ai_security_file_permission
      rw [hsys]
      rfl
    obtain ⟨hre, hid, hth, hau⟩ := getOrCreate_preserves pid comm st
    rw [hcore, filePermissionCore_found now pid fname (getOrCreate pid comm st)
          (resolvedProfile pid comm st) (lookup_getOrCreate pid comm st),
        hre, hid, hth]
    rfl
  · intro p hp hne
    have hres : resolvedProfile pid comm st = p := by
      unfold resolvedProfile
      rw [hp]
    have hbe : (new_uid == old_uid) = false := by
      simp [hne]
    have hbounds := privesc_score_bounds (setuidEventInfo pid new_uid old_uid) p
        st.threat_threshold rfl
    rw [setuid_hook_found now pid new_uid old_uid comm st p hp hsys hbe]
    constructor
    · rw [if_pos (by omega)]
      unfold setuidSubmissionEvent
      rw [hres]
    · unfold setuidSubmissionEvent mkSEvent
      rw [hres]
      dsimp only
      omega

/-- A reachable state holding the profile of pid 77. -/
def wState5 : MState := (ai_security_create_profile 77 "w" initState).2

/-- Witness for C5 at pid 77 in a one-profile state: the file hook obeys
the retention rule and the setuid hook (uid 1000 -> 0) retains its event
with a score above 20. -/
theorem c5_event_retention_witness :
    ((ai_security_file_permission true 0 77 "w" "notes" wState5).2.recent_events =
      if 20 < fileSubmissionScore 77 "w" "notes" wState5
      then wState5.recent_events ++ [fileSubmissionEvent 0 77 "w" "notes" wState5]
      else wState5.recent_events) ∧
    ((ai_security_task_fix_setuid true 0 77 "w" 0 1000 wState5).2.recent_events
        = wState5.recent_events ++ [setuidSubmissionEvent 0 77 "w" 0 1000 wState5] ∧
     20 < (setuidSubmissionEvent 0 77 "w" 0 1000 wState5).threat_score) :=
  ⟨(c5_event_retention 0 77 "w" "notes" 0 1000 wState5 (by omega)).1,
   (c5_event_retention 0 77 "w" "notes" 0 1000 wState5 (by omega)).2
     (initProfile 77 "w") rfl (by omega)⟩

/-- The pid column of a profile list. -/
def pidList (ps : List Profile) : List Nat := ps.map (fun q => q.pid)

/-- The profile update of the analysis keeps the pid. -/
lemma analyze_profile_pid (e : EventInfo) (p : Profile) (threshold : Nat) :
    ((analyzeWithProfile e p threshold).2).pid = p.pid := rfl

/-- The learning pass keeps the pid. -/
lemma learning_step_pid (p : Profile) : (learningProfileStep p).pid = p.pid := by
  unfold learningProfileStep
  split_ifs <;> rfl

/-- Replacing the profile of a pid with a profile of that same pid keeps
the pid column unchanged. -/
lemma pidList_setProfile (pid : Nat) (q : Profile) (ps : List Profile)
    (h : q.pid = pid) : pidList (setProfile pid q ps) = pidList ps := by
  unfold pidList setProfile
  rw [List.map_map]
  apply List.map_congr_left
  intro a _
  by_cases hb : (a.pid == pid) = true
  · have ha : a.pid = pid := by simpa using hb
    simp [Function.comp, hb, h, ha]
  · simp [Function.comp, hb]

/-- Mapping the learning pass keeps the pid column unchanged. -/
lemma pidList_learning (ps : List Profile) :
    pidList (ps.map learningProfileStep) = pidList ps := by
  unfold pidList
  rw [List.map_map]
  apply List.map_congr_left
  intro a _
  simp [Function.comp, learning_step_pid]

/-- A pid the lookup does not find is not in the pid column. -/
lemma not_mem_pidList_of_lookup_none (pid : Nat) (ps : List Profile)
    (h : lookupProfile pid ps = Option.none) : pid ∉ pidList ps := by
  intro hm
  obtain ⟨q, hq, he⟩ := List.mem_map.mp hm
  have := List.find?_eq_none.mp h q hq
  simp [he] at this

/-- A found profile carries the pid that was looked up. -/
lemma lookup_some_pid (pid : Nat) (ps : List Profile) (p : Profile)
    (h : lookupProfile pid ps = some p) : p.pid = pid := by
  have := List.find?_some h
  simpa using this

/-- ai_security_make_decision keeps the pid column unchanged. -/
lemma pidList_make_decision (e : EventInfo) (st : MState) :
    pidList (ai_security_make_decision e st).2.2.profiles = pidList st.profiles := by
  cases hl : lookupProfile e.pid st.profiles with
  | none =>
      unfold ai_security_make_decision ai_security_analyze_event
      rw [hl]
  | some p =>
      rw [make_decision_found e st p hl]
      dsimp only
      exact pidList_setProfile _ _ _
        ((analyze_profile_pid _ _ _).trans (lookup_some_pid _ _ _ hl))

/-- Profile creation either leaves the pid column unchanged or appends
the new pid, which was absent. -/
lemma pidList_create (pid : Nat) (comm : String) (st : MState) :
    pidList (ai_security_create_profile pid comm st).2.profiles = pidList st.profiles ∨
    (pidList (ai_security_create_profile pid comm st).2.profiles
        = pidList st.profiles ++ [pid] ∧ pid ∉ pidList st.profiles) := by
  cases hl : lookupProfile pid st.profiles with
  | some q =>
      left
      unfold ai_security_create_profile
      rw [hl]
  | none =>
      right
      refine ⟨?_, not_mem_pidList_of_lookup_none pid st.profiles hl⟩
      unfold ai_security_create_profile
      rw [hl]
      unfold pidList
      simp [initProfile]

/-- The pid-column invariant: no pid occurs twice. -/
def PidsNodup (st : MState) : Prop := (pidList st.profiles).Nodup

/-- Creation preserves the pid-column invariant. -/
lemma nodup_create (pid : Nat) (comm : String) (st : MState)
    (h : PidsNodup st) : PidsNodup (ai_security_create_profile pid comm st).2 := by
  unfold PidsNodup at h ⊢
  rcases pidList_create pid comm st with he | ⟨he, hnm⟩
  · rw [he]; exact h
  · rw [he, List.nodup_append]
    exact ⟨h, List.nodup_singleton pid, by
      intro a ha hb
      rw [List.mem_singleton] at hb
      exact hnm (hb ▸ ha)⟩

/-- getOrCreate preserves the pid-column invariant. -/
lemma nodup_getOrCreate (pid : Nat) (comm : String) (st : MState)
    (h : PidsNodup st) : PidsNodup (getOrCreate pid comm st) := by
  unfold getOrCreate
  cases hl : lookupProfile pid st.profiles with
  | some q => exact h
  | none => exact nodup_create pid comm st h

/-- The post-resolution part of the file hook keeps the pid column. -/
lemma pidList_filePermissionCore (ok : Bool) (now pid : Nat) (fname : String)
    (st1 : MState) :
    pidList (filePermissionCore ok now pid fname st1).2.profiles
      = pidList st1.profiles := by
  unfold filePermissionCore
  cases hl : lookupProfile pid st1.profiles with
  | none => rfl
  | some p =>
      dsimp only
      split_ifs <;>
        first
          | rfl
          | exact (pidList_make_decision _ _).trans rfl

/-- The file hook preserves the pid-column invariant. -/
lemma nodup_file_permission (ok : Bool) (now pid : Nat) (comm fname : String)
    (st : MState) (h : PidsNodup st) :
    PidsNodup (ai_security_file_permission ok now pid comm fname st).2 := by
  unfold ai_security_file_permission
  split_ifs with hs
  · exact h
  · unfold PidsNodup
    rw [pidList_filePermissionCore]
    exact nodup_getOrCreate pid comm st h

/-- The setuid hook keeps the pid column unchanged. -/
lemma pidList_setuid (ok : Bool) (now pid : Nat) (comm : String)
    (nu ou : Nat) (st : MState) :
    pidList (ai_security_task_fix_setuid ok now pid comm nu ou st).2.profiles
      = pidList st.profiles := by
  unfold ai_security_task_fix_setuid
  cases hl : lookupProfile pid st.profiles with
  | none => split_ifs <;> rfl
  | some p =>
      dsimp only
      split_ifs <;>
        first
          | rfl
          | exact (pidList_make_decision _ _).trans rfl

/-- The task-create hook keeps the pid column unchanged. -/
lemma pidList_task_create (ok : Bool) (pid : Nat) (comm : String) (st : MState) :
    pidList (ai_security_task_create ok pid comm st).2.profiles
      = pidList st.profiles := by
  unfold ai_security_task_create
  cases hl : lookupProfile pid st.profiles with
  | none => split_ifs <;> rfl
  | some p =>
      dsimp only
      split_ifs <;>
        first
          | rfl
          | exact (pidList_setProfile _ _ _
              ((analyze_profile_pid _ _ _).trans (lookup_some_pid _ _ _ hl))).trans rfl

/-- The learning pass keeps the pid column unchanged. -/
lemma pidList_learning_work (now : Nat) (st : MState) :
    pidList (ai_security_learning_work now st).profiles = pidList st.profiles := by
  unfold ai_security_learning_work
  split_ifs with h1
  · rfl
  · exact pidList_learning _

/-- Every reachable state satisfies the pid-column invariant. -/
lemma reach_pids_nodup (st : MState) (h : Reach st) : PidsNodup st := by
  induction h with
  | init => simp [PidsNodup, initState, pidList]
  | create pid comm _ ih => exact nodup_create pid comm _ ih
  | filePerm ok now pid comm fname _ ih =>
      exact nodup_file_permission ok now pid comm fname _ ih
  | taskCreate ok pid comm _ ih =>
      unfold PidsNodup
      rw [pidList_task_create]
      exact ih
  | setuid ok now pid comm nu ou _ ih =>
      unfold PidsNodup
      rw [pidList_setuid]
      exact ih
  | learn now _ ih =>
      unfold PidsNodup
      rw [pidList_learning_work]
      exact ih

/-- A list with a duplicate-free pid column holds at most one profile of
any pid. -/
lemma filter_pid_length_le_one (ps : List Profile)
    (h : (pidList ps).Nodup) (pid : Nat) :
    (ps.filter (fun q => q.pid == pid)).length ≤ 1 := by
  induction ps with
  | nil => simp
  | cons a t ih =>
      rw [show pidList (a :: t) = a.pid :: pidList t from rfl, List.nodup_cons] at h
      obtain ⟨hnot, ht⟩ := h
      by_cases hb : (a.pid == pid) = true
      · have ha : a.pid = pid := by simpa using hb
        have hnil : t.filter (fun q => q.pid == pid) = [] := by
          rw [List.filter_eq_nil_iff]
          intro q hq hqb
          have hq2 : q.pid = pid := by simpa using hqb
          exact hnot (List.mem_map.mpr ⟨q, hq, by rw [hq2, ha]⟩)
        simp [List.filter_cons, hb, hnil]
      · have hb2 : (a.pid == pid) = false := by simpa using hb
        simp only [List.filter_cons, hb2, Bool.false_eq_true, if_false]
        exact ih ht

/-- C8: creation for an already-profiled subject id performs only a
lookup and changes nothing, and every state reachable from
initialization holds at most one profile per subject id. -/
theorem c8_at_most_one_profile_per_pid (st : MState) (h : Reach st) :
    (∀ (pid : Nat) (comm : String) (q : Profile),
        lookupProfile pid st.profiles = some q →
        ai_security_create_profile pid comm st = (0, st)) ∧
    ∀ pid : Nat, (st.profiles.filter (fun q => q.pid == pid)).length ≤ 1 := by
  refine ⟨fun pid comm q hq => ?_, fun pid => ?_⟩
  · unfold ai_security_create_profile
    rw [hq]
  · exact filter_pid_length_le_one st.profiles (reach_pids_nodup st h) pid

/-- Witness for C8 at the reachable one-profile state: re-creating the
profile of pid 77 changes nothing, and pid 77 holds at most one
profile. -/
theorem c8_at_most_one_profile_per_pid_witness :
    ai_security_create_profile 77 "w8" wState5 = (0, wState5) ∧
    (wState5.profiles.filter (fun q => q.pid == 77)).length ≤ 1 :=
  ⟨(c8_at_most_one_profile_per_pid wState5
      (Reach.create 77 "w" Reach.init)).1 77 "w8" (initProfile 77 "w") rfl,
   (c8_at_most_one_profile_per_pid wState5
      (Reach.create 77 "w" Reach.init)).2 77⟩

end AuroraAISecurity
